import Mathlib

/-!
Shallow embedding of `src/src/app/funds/FundsManagement.tsx`.

The component keeps seven pieces of React state (`funds`, `depositAmount`,
`depositMode`, `loading`, `error`, `success`, `authToken`); `depositMode` is a
constant `'NB'` (it has no setter).  The two asynchronous operations
`fetchFunds` and `depositFunds` are embedded as pure functions from the current
state and the network outcome (supplied as an explicit parameter) to the final
state, the list of emitted external effects, and - for deposits - the timer
scheduled by `setTimeout`.  Firing a timer is a separate function.

JavaScript numbers are modelled as `JsNum`: either NaN, an infinity, or a
finite scaled decimal `num mant scale` denoting `mant / 10 ^ scale`.
`parseFloat` models IEEE-754 binary64 underflow exactly: a non-zero magnitude
of at most `2 ^ (-1075)` - half the smallest denormal, with the tie going to
even, that is to zero - rounds to zero, as in JavaScript.  Mantissa rounding
to 53 bits and overflow to an infinity are not modelled: neither can change
the sign class of the result (mantissa rounding moves a value by less than
one ulp and never across zero; overflow keeps the sign, and an infinity
compares to `0` the same way any huge finite value does), and the verified
properties depend only on the sign and NaN-ness of `parseFloat`'s result,
never on its magnitude.
-/

/-- A JavaScript number as produced by `parseFloat`: NaN, an infinity, or a
finite scaled decimal denoting `mant / 10 ^ scale` (underflow to zero is
applied in `parseMag`; mantissa rounding is not modelled, see the header). -/
inductive JsNum where
  | nan
  | posInf
  | negInf
  | num (mant : Int) (scale : Nat)
  deriving DecidableEq, Repr

/-- The JavaScript comparison `x <= 0` on a `JsNum`.  `NaN <= 0` is `false`;
the sign of `mant / 10 ^ scale` is the sign of `mant`. -/
def jsNonPos : JsNum → Bool
  | .nan => false
  | .posInf => false
  | .negInf => true
  | .num m _ => m ≤ 0

/-- The JavaScript `WhiteSpace` and `LineTerminator` characters that
`parseFloat` skips: TAB, LF, VT, FF, CR, SP, NBSP, LS, PS, ZWNBSP, and the
Unicode `Space_Separator` category. -/
def isJsWhitespace (c : Char) : Bool :=
  c.toNat = 0x09 || c.toNat = 0x0A || c.toNat = 0x0B || c.toNat = 0x0C ||
  c.toNat = 0x0D || c.toNat = 0x20 || c.toNat = 0xA0 || c.toNat = 0x1680 ||
  (0x2000 ≤ c.toNat && c.toNat ≤ 0x200A) ||
  c.toNat = 0x2028 || c.toNat = 0x2029 || c.toNat = 0x202F ||
  c.toNat = 0x205F || c.toNat = 0x3000 || c.toNat = 0xFEFF

/-- Skip the leading whitespace that `parseFloat` ignores. -/
def skipWs : List Char → List Char
  | [] => []
  | c :: cs => if isJsWhitespace c then skipWs cs else c :: cs

/-- Split off the longest leading run of decimal digits. -/
def takeDigits : List Char → List Char × List Char
  | [] => ([], [])
  | c :: cs =>
      if c.isDigit then
        let p := takeDigits cs
        (c :: p.1, p.2)
      else ([], c :: cs)

/-- Numeric value of a digit string. -/
def digitsVal (ds : List Char) : Nat :=
  ds.foldl (fun a c => a * 10 + (c.toNat - 48)) 0

/-- Parse an unsigned decimal literal (digits, optional fraction, optional
exponent), returning `none` when no digit is found - the NaN case.  Like
JavaScript's `parseFloat`, a trailing `e` without digits is ignored.  The
result is the pair `(mant, scale)` denoting `mant / 10 ^ scale`. -/
def parseUnsigned (cs : List Char) : Option (Nat × Nat) :=
  let ip := takeDigits cs
  let fp : List Char × List Char :=
    match ip.2 with
    | '.' :: rest => takeDigits rest
    | _ => ([], ip.2)
  if ip.1 = [] ∧ fp.1 = [] then none
  else
    let mant : Nat := digitsVal ip.1 * 10 ^ fp.1.length + digitsVal fp.1
    let scale : Nat := fp.1.length
    let expo : Int :=
      match fp.2 with
      | 'e' :: '+' :: r2 => (digitsVal (takeDigits r2).1 : Int)
      | 'e' :: '-' :: r2 => -(digitsVal (takeDigits r2).1 : Int)
      | 'e' :: r2 => (digitsVal (takeDigits r2).1 : Int)
      | 'E' :: '+' :: r2 => (digitsVal (takeDigits r2).1 : Int)
      | 'E' :: '-' :: r2 => -(digitsVal (takeDigits r2).1 : Int)
      | 'E' :: r2 => (digitsVal (takeDigits r2).1 : Int)
      | _ => 0
    some (if 0 ≤ expo then (mant * 10 ^ expo.toNat, scale)
          else (mant, scale + (-expo).toNat))

/-- Parse the magnitude after the optional sign: `Infinity` or a decimal.
A magnitude `mant / 10 ^ scale` with `mant * 2 ^ 1075 ≤ 10 ^ scale`, that is
at most `2 ^ (-1075)`, underflows: binary64 round-to-nearest-even takes it to
zero (JavaScript's `parseFloat('1e-324')` is `0`).  The sign of that zero is
dropped: `-0 <= 0` and `0 <= 0` agree in JavaScript, so no guard can tell
them apart. -/
def parseMag (cs : List Char) (neg : Bool) : JsNum :=
  if cs.take 8 = "Infinity".data then (if neg then .negInf else .posInf)
  else
    match parseUnsigned cs with
    | none => .nan
    | some p =>
        if p.1 * 2 ^ 1075 ≤ 10 ^ p.2 then .num 0 0
        else .num (if neg then -(p.1 : Int) else (p.1 : Int)) p.2

/-- Model of JavaScript's `parseFloat` on a string (sign, `Infinity`, digits,
fraction, exponent; NaN when no number can be parsed). -/
def parseFloat (s : String) : JsNum :=
  match skipWs s.data with
  | '+' :: rest => parseMag rest false
  | '-' :: rest => parseMag rest true
  | cs => parseMag cs false

/-- `interface FundsData` - every field optional. -/
structure FundsData where
  type : Option String
  email : Option String
  balance : Option JsNum
  deriving DecidableEq, Repr

/-- The `data` object inside a deposit response. -/
structure DepositData where
  url : Option String
  deriving DecidableEq, Repr

/-- `interface DepositResponse`. -/
structure DepositResponse where
  success : Option Bool
  message : Option String
  balance : Option JsNum
  data : Option DepositData
  deriving DecidableEq, Repr

/-- The optional chain `responseData.data?.url`. -/
def DepositResponse.redirectUrl (r : DepositResponse) : Option String :=
  match r.data with
  | some d => d.url
  | none => none

/-- Truthiness of `responseData.data?.url`: present and non-empty. -/
def truthyUrl (r : DepositResponse) : Bool :=
  match r.redirectUrl with
  | some u => u != ""
  | none => false

/-- The component's React state. -/
structure ComponentState where
  funds : Option FundsData
  depositAmount : String
  loading : Bool
  error : String
  success : String
  authToken : String
  deriving DecidableEq, Repr

/-- The `useState` initial values. -/
def initialState : ComponentState :=
  { funds := none, depositAmount := "", loading := false,
    error := "", success := "", authToken := "" }

def BASE_URL : String := "http://13.202.238.76:3000/api/v1"

/-- `depositMode` is fixed: `useState<PaymentMode>('NB')` with no setter. -/
def depositMode : String := "NB"

/-- Observable external effects emitted by an operation. -/
inductive Effect where
  | netGet (url : String) (bearerToken : String)
  | netPost (url : String) (bearerToken : String) (amount : JsNum) (mode : String)
  | windowOpen (url : String)
  deriving DecidableEq, Repr

/-- Outcome of the GET request in `fetchFunds`: a parsed body, a non-2xx
status (the thrown `HTTP error! status: ...`), or a transport-level failure
whose resolved message is `detail` (`'Unknown error occurred'` when the thrown
value is not an `Error`). -/
inductive FetchOutcome where
  | ok (data : FundsData)
  | httpError (status : Nat)
  | transportError (detail : String)
  deriving DecidableEq, Repr

/-- Outcome of the POST request in `depositFunds`. -/
inductive DepositOutcome where
  | ok (resp : DepositResponse)
  | httpError (status : Nat)
  | transportError (detail : String)
  deriving DecidableEq, Repr

/-- Result of running `fetchFunds` to completion. -/
structure FetchResult where
  state : ComponentState
  effects : List Effect
  deriving DecidableEq, Repr

/-- The callback scheduled by `setTimeout` in the two deposit success
branches. -/
inductive TimerAction where
  | redirect (url : String)
  | refresh
  deriving DecidableEq, Repr

/-- Result of running `depositFunds` up to its synchronous completion: final
state, emitted effects, and the pending timer (delay in ms, callback). -/
structure DepositResult where
  state : ComponentState
  effects : List Effect
  timer : Option (Nat × TimerAction)
  deriving DecidableEq, Repr

/-- The synchronous start of `fetchFunds` after its guard:
`setLoading(true); setError('')`.  Note: `success` is NOT cleared. -/
def fetchStart (s : ComponentState) : ComponentState :=
  { s with loading := true, error := "" }

/-- The synchronous start of `depositFunds` after its guards:
`setLoading(true); setError(''); setSuccess('')`. -/
def depositStart (s : ComponentState) : ComponentState :=
  { s with loading := true, error := "", success := "" }

/-- The deposit amount guard `!depositAmount || parseFloat(depositAmount) <= 0`.
Because `NaN <= 0` is `false`, a non-empty string that does not parse at all
is NOT caught by this guard.  With underflow handled in `parseMag`, this
agrees with the source guard on every string, including positive decimals
below the double range such as `'1e-324'` (rejected, since they round to
`0`). -/
def invalidAmount (a : String) : Bool :=
  a == "" || jsNonPos (parseFloat a)

/-- `fetchFunds`, lines 41-71: guard on the token, then GET, then either
replace the snapshot wholesale or set the error message; `loading` is cleared
in `finally`. -/
def fetchFunds (s : ComponentState) (outcome : FetchOutcome) : FetchResult :=
  if s.authToken = "" then
    { state := { s with error := "Please enter your Bearer token first" }, effects := [] }
  else
    let s1 := fetchStart s
    let s2 :=
      match outcome with
      | .ok d => { s1 with funds := some d }
      | .httpError status =>
          { s1 with error := "Failed to fetch funds: " ++ ("HTTP error! status: " ++ toString status) }
      | .transportError detail =>
          { s1 with error := "Failed to fetch funds: " ++ detail }
    { state := { s2 with loading := false },
      effects := [.netGet (BASE_URL ++ "/funds") s.authToken] }

/-- `depositFunds`, lines 74-139: token guard, amount guard, then POST; on a
2xx response branch on `depositMode === 'NB' && responseData.data?.url`,
scheduling either the 1500 ms redirect timer or the 2000 ms refresh timer;
on failure set the error message; `loading` is cleared in `finally`. -/
def depositFunds (s : ComponentState) (outcome : DepositOutcome) : DepositResult :=
  if s.authToken = "" then
    { state := { s with error := "Please enter your Bearer token first" },
      effects := [], timer := none }
  else if invalidAmount s.depositAmount then
    { state := { s with error := "Please enter a valid amount" },
      effects := [], timer := none }
  else
    let s1 := depositStart s
    let post : Effect :=
      .netPost (BASE_URL ++ "/funds/deposit") s.authToken (parseFloat s.depositAmount) depositMode
    match outcome with
    | .ok resp =>
        if depositMode = "NB" ∧ truthyUrl resp = true then
          { state := { s1 with success := "Redirecting to payment gateway...", loading := false },
            effects := [post],
            timer := some (1500, .redirect (resp.redirectUrl.getD "")) }
        else
          { state := { s1 with success := "Successfully deposited ₹" ++ s.depositAmount,
                               depositAmount := "", loading := false },
            effects := [post],
            timer := some (2000, .refresh) }
    | .httpError status =>
        { state := { s1 with error := "Failed to deposit funds: " ++ ("HTTP error! status: " ++ toString status),
                             loading := false },
          effects := [post], timer := none }
    | .transportError detail =>
        { state := { s1 with error := "Failed to deposit funds: " ++ detail, loading := false },
          effects := [post], timer := none }

/-- The 1500 ms `setTimeout` callback of the redirect branch:
`window.open(url, '_blank'); setSuccess('Payment gateway opened...'); setDepositAmount('')`. -/
def redirectTimerBody (url : String) (s : ComponentState) : ComponentState × List Effect :=
  ({ s with success := "Payment gateway opened in new tab. Complete your payment there.",
            depositAmount := "" },
   [.windowOpen url])

/-- The 2000 ms `setTimeout` callback of the direct branch:
`fetchFunds(); setSuccess('')`.  The fetch outcome is a parameter; `fetchFunds`
never writes `success`, so applying `setSuccess('')` after the whole fetch is
equivalent to the source's interleaving. -/
def refreshTimerBody (s : ComponentState) (outcome : FetchOutcome) : ComponentState × List Effect :=
  let r := fetchFunds s outcome
  ({ r.state with success := "" }, r.effects)

/-- The `useEffect(..., [authToken])` body runs after any render in which the
dependency changed; it fetches iff the token is truthy.  So on an update a
fetch is triggered iff the token changed and the new value is non-empty. -/
def fetchTriggeredOnUpdate (prev cur : String) : Bool :=
  (cur != prev) && (cur != "")

/-- On mount the effect body runs unconditionally; it fetches iff the initial
token is non-empty. -/
def fetchTriggeredOnMount (init : String) : Bool :=
  init != ""

set_option maxRecDepth 10000

/-- Claim C7: with an empty token, both `fetchFunds` and `depositFunds` issue
no network call, set the error message `Please enter your Bearer token first`,
and leave every other state field (snapshot, loading flag, success message,
amount) unchanged; `depositFunds` additionally schedules no timer. -/
theorem c7_missing_token (s : ComponentState) (fo : FetchOutcome) (dep : DepositOutcome)
    (h : s.authToken = "") :
    fetchFunds s fo =
      { state := { s with error := "Please enter your Bearer token first" }, effects := [] } ∧
    depositFunds s dep =
      { state := { s with error := "Please enter your Bearer token first" },
        effects := [], timer := none } := by
  constructor <;> simp [fetchFunds, depositFunds, h]

/-- Witness for C7 at a concrete state with an empty token and a prior
snapshot and success message, which both survive untouched. -/
theorem c7_missing_token_witness :
    fetchFunds
        { funds := some { type := some "savings", email := none, balance := some (.num 500 0) },
          depositAmount := "5", loading := false, error := "", success := "prior", authToken := "" }
        (.ok { type := none, email := none, balance := none }) =
      { state :=
          { funds := some { type := some "savings", email := none, balance := some (.num 500 0) },
            depositAmount := "5", loading := false,
            error := "Please enter your Bearer token first", success := "prior", authToken := "" },
        effects := [] } ∧
    depositFunds
        { funds := some { type := some "savings", email := none, balance := some (.num 500 0) },
          depositAmount := "5", loading := false, error := "", success := "prior", authToken := "" }
        (.httpError 500) =
      { state :=
          { funds := some { type := some "savings", email := none, balance := some (.num 500 0) },
            depositAmount := "5", loading := false,
            error := "Please enter your Bearer token first", success := "prior", authToken := "" },
        effects := [], timer := none } :=
  c7_missing_token _ _ _ (by decide)

/-- Claim C10: `fetchFunds` never writes the success message, on any of its
paths (empty-token abort, success, non-2xx status, transport failure), so a
success message set by a prior deposit persists through a later fetch. -/
theorem c10_fetch_preserves_success (s : ComponentState) (o : FetchOutcome) :
    (fetchFunds s o).state.success = s.success := by
  by_cases h : s.authToken = "" <;> cases o <;> simp [fetchFunds, fetchStart, h]

/-- Claim C4: a successful fetch replaces the held snapshot wholesale with the
parsed response body: the snapshot afterwards is exactly `some d`, whatever the
prior snapshot held, so fields absent from the response are absent from the
snapshot and nothing is inherited. -/
theorem c4_snapshot_wholesale (s : ComponentState) (d : FundsData)
    (h : s.authToken ≠ "") :
    (fetchFunds s (.ok d)).state.funds = some d := by
  simp [fetchFunds, fetchStart, h]

/-- Witness for C4: the prior snapshot has an email, the response does not;
the new snapshot is exactly the response, with no email. -/
theorem c4_snapshot_wholesale_witness :
    (fetchFunds
        { funds := some { type := none, email := some "a@b.c", balance := none },
          depositAmount := "", loading := false, error := "", success := "", authToken := "tok" }
        (.ok { type := some "savings", email := none, balance := some (.num 500 0) })).state.funds
      = some { type := some "savings", email := none, balance := some (.num 500 0) } :=
  c4_snapshot_wholesale _ _ (by decide)

/-- Claim C8: a fetch that fails after the request was issued sets the error
message to the fixed prefix `Failed to fetch funds: ` plus the underlying
detail (the thrown `HTTP error! status: ...` text for a non-2xx status, the
error's message for a transport failure), leaves the previous snapshot
untouched, and the loading flag ends cleared on every outcome. -/
theorem c8_fetch_failure_frame (s : ComponentState) (status : Nat) (detail : String)
    (h : s.authToken ≠ "") :
    ((fetchFunds s (.httpError status)).state.error
        = "Failed to fetch funds: " ++ ("HTTP error! status: " ++ toString status)) ∧
    (fetchFunds s (.httpError status)).state.funds = s.funds ∧
    ((fetchFunds s (.transportError detail)).state.error = "Failed to fetch funds: " ++ detail) ∧
    (fetchFunds s (.transportError detail)).state.funds = s.funds ∧
    (∀ o : FetchOutcome, (fetchFunds s o).state.loading = false) := by
  refine ⟨by simp [fetchFunds, fetchStart, h], by simp [fetchFunds, fetchStart, h],
          by simp [fetchFunds, fetchStart, h], by simp [fetchFunds, fetchStart, h], ?_⟩
  intro o
  cases o <;> simp [fetchFunds, fetchStart, h]

/-- Witness for C8 at a concrete state holding a prior snapshot, with a 404
status and a network-level detail. -/
theorem c8_fetch_failure_frame_witness :
    ((fetchFunds
        { funds := some { type := some "savings", email := none, balance := some (.num 500 0) },
          depositAmount := "", loading := false, error := "", success := "", authToken := "tok" }
        (.httpError 404)).state.error
      = "Failed to fetch funds: " ++ ("HTTP error! status: " ++ toString 404)) ∧
    (fetchFunds
        { funds := some { type := some "savings", email := none, balance := some (.num 500 0) },
          depositAmount := "", loading := false, error := "", success := "", authToken := "tok" }
        (.httpError 404)).state.funds
      = some { type := some "savings", email := none, balance := some (.num 500 0) } ∧
    ((fetchFunds
        { funds := some { type := some "savings", email := none, balance := some (.num 500 0) },
          depositAmount := "", loading := false, error := "", success := "", authToken := "tok" }
        (.transportError "Failed to fetch")).state.error
      = "Failed to fetch funds: " ++ "Failed to fetch") ∧
    (fetchFunds
        { funds := some { type := some "savings", email := none, balance := some (.num 500 0) },
          depositAmount := "", loading := false, error := "", success := "", authToken := "tok" }
        (.transportError "Failed to fetch")).state.funds
      = some { type := some "savings", email := none, balance := some (.num 500 0) } ∧
    (∀ o : FetchOutcome,
      (fetchFunds
        { funds := some { type := some "savings", email := none, balance := some (.num 500 0) },
          depositAmount := "", loading := false, error := "", success := "", authToken := "tok" }
        o).state.loading = false) :=
  c8_fetch_failure_frame _ 404 "Failed to fetch" (by decide)

/-- Counterexample to claim C1: the amount string `"abc"` is non-numeric
(`parseFloat` gives NaN), yet `depositFunds` with a non-empty token issues the
POST network call (with amount NaN) and does not set the invalid-amount
message, because the guard `parseFloat(depositAmount) <= 0` is `false` for
NaN. -/
theorem c1_counterexample :
    parseFloat "abc" = JsNum.nan ∧
    (depositFunds
        { funds := none, depositAmount := "abc", loading := false,
          error := "", success := "", authToken := "tok" }
        (.httpError 500)).effects =
      [.netPost (BASE_URL ++ "/funds/deposit") "tok" JsNum.nan "NB"] ∧
    (depositFunds
        { funds := none, depositAmount := "abc", loading := false,
          error := "", success := "", authToken := "tok" }
        (.httpError 500)).state.error ≠ "Please enter a valid amount" :=
  ⟨by decide, by decide, by decide⟩

/-- Claim C1 as amended: for every amount string that the guard actually
rejects - the empty string, or one whose `parseFloat` value is non-positive
(a number `<= 0` or `-Infinity`; NaN is NOT rejected) - `depositFunds` issues
no network call, sets the error to `Please enter a valid amount`, schedules no
timer, and leaves every other field (loading flag included) unchanged. -/
theorem c1_amended_invalid_amount (s : ComponentState) (o : DepositOutcome)
    (htok : s.authToken ≠ "") (hbad : invalidAmount s.depositAmount = true) :
    depositFunds s o =
      { state := { s with error := "Please enter a valid amount" },
        effects := [], timer := none } := by
  simp [depositFunds, htok, hbad]

/-- Witness for the amended C1 at token `"tok"`, amount `"0"`. -/
theorem c1_amended_invalid_amount_witness :
    depositFunds
        { funds := none, depositAmount := "0", loading := false,
          error := "", success := "", authToken := "tok" }
        (.ok { success := some true, message := none, balance := none, data := none }) =
      { state :=
          { funds := none, depositAmount := "0", loading := false,
            error := "Please enter a valid amount", success := "", authToken := "tok" },
        effects := [], timer := none } :=
  c1_amended_invalid_amount _ _ (by decide) (by decide)

/-- Claim C9: a deposit that fails after passing both guards (non-2xx status
or transport failure) sets the error message, leaves the amount input
unchanged, and ends with the loading flag cleared. -/
theorem c9_deposit_failure_frame (s : ComponentState) (status : Nat) (detail : String)
    (htok : s.authToken ≠ "") (hamt : invalidAmount s.depositAmount = false) :
    ((depositFunds s (.httpError status)).state.error
        = "Failed to deposit funds: " ++ ("HTTP error! status: " ++ toString status)) ∧
    (depositFunds s (.httpError status)).state.depositAmount = s.depositAmount ∧
    (depositFunds s (.httpError status)).state.loading = false ∧
    ((depositFunds s (.transportError detail)).state.error
        = "Failed to deposit funds: " ++ detail) ∧
    (depositFunds s (.transportError detail)).state.depositAmount = s.depositAmount ∧
    (depositFunds s (.transportError detail)).state.loading = false := by
  refine ⟨?_, ?_, ?_, ?_, ?_, ?_⟩ <;> simp [depositFunds, depositStart, htok, hamt]

/-- Witness for C9 at token `"tok"`, amount `"100"`, status 500 and a
network-level detail. -/
theorem c9_deposit_failure_frame_witness :
    ((depositFunds
        { funds := none, depositAmount := "100", loading := false,
          error := "", success := "", authToken := "tok" }
        (.httpError 500)).state.error
      = "Failed to deposit funds: " ++ ("HTTP error! status: " ++ toString 500)) ∧
    (depositFunds
        { funds := none, depositAmount := "100", loading := false,
          error := "", success := "", authToken := "tok" }
        (.httpError 500)).state.depositAmount = "100" ∧
    (depositFunds
        { funds := none, depositAmount := "100", loading := false,
          error := "", success := "", authToken := "tok" }
        (.httpError 500)).state.loading = false ∧
    ((depositFunds
        { funds := none, depositAmount := "100", loading := false,
          error := "", success := "", authToken := "tok" }
        (.transportError "Failed to fetch")).state.error
      = "Failed to deposit funds: " ++ "Failed to fetch") ∧
    (depositFunds
        { funds := none, depositAmount := "100", loading := false,
          error := "", success := "", authToken := "tok" }
        (.transportError "Failed to fetch")).state.depositAmount = "100" ∧
    (depositFunds
        { funds := none, depositAmount := "100", loading := false,
          error := "", success := "", authToken := "tok" }
        (.transportError "Failed to fetch")).state.loading = false :=
  c9_deposit_failure_frame _ 500 "Failed to fetch" (by decide) (by decide)

/-- Claim C5: a successful deposit whose response carries a (truthy) redirect
URL sets the interim success message `Redirecting to payment gateway...`
immediately while leaving the amount input untouched, and schedules the
1500 ms timer; firing that timer opens the URL in a new browsing context,
replaces the success message with the distinct gateway-opened notice, and
only then clears the amount input. -/
theorem c5_redirect_two_phase (s : ComponentState) (resp : DepositResponse) (u : String)
    (htok : s.authToken ≠ "") (hamt : invalidAmount s.depositAmount = false)
    (hurl : resp.redirectUrl = some u) (hu : u ≠ "") :
    (depositFunds s (.ok resp)).state.success = "Redirecting to payment gateway..." ∧
    (depositFunds s (.ok resp)).state.depositAmount = s.depositAmount ∧
    (depositFunds s (.ok resp)).timer = some (1500, .redirect u) ∧
    (redirectTimerBody u (depositFunds s (.ok resp)).state).1.success
        = "Payment gateway opened in new tab. Complete your payment there." ∧
    (redirectTimerBody u (depositFunds s (.ok resp)).state).1.depositAmount = "" ∧
    (redirectTimerBody u (depositFunds s (.ok resp)).state).2 = [.windowOpen u] ∧
    ("Redirecting to payment gateway..." : String)
        ≠ "Payment gateway opened in new tab. Complete your payment there." := by
  have ht : truthyUrl resp = true := by simp [truthyUrl, hurl, hu]
  refine ⟨?_, ?_, ?_, ?_, ?_, ?_, by decide⟩ <;>
    simp [depositFunds, depositStart, redirectTimerBody, depositMode, htok, hamt, ht, hurl]

/-- Witness for C5 at token `"tok"`, amount `"100"`, redirect URL
`https://pay.example/x`. -/
theorem c5_redirect_two_phase_witness :
    (depositFunds
        { funds := none, depositAmount := "100", loading := false,
          error := "", success := "", authToken := "tok" }
        (.ok { success := none, message := none, balance := none,
               data := some { url := some "https://pay.example/x" } })).state.success
      = "Redirecting to payment gateway..." ∧
    (depositFunds
        { funds := none, depositAmount := "100", loading := false,
          error := "", success := "", authToken := "tok" }
        (.ok { success := none, message := none, balance := none,
               data := some { url := some "https://pay.example/x" } })).state.depositAmount
      = "100" ∧
    (depositFunds
        { funds := none, depositAmount := "100", loading := false,
          error := "", success := "", authToken := "tok" }
        (.ok { success := none, message := none, balance := none,
               data := some { url := some "https://pay.example/x" } })).timer
      = some (1500, .redirect "https://pay.example/x") ∧
    (redirectTimerBody "https://pay.example/x"
        (depositFunds
          { funds := none, depositAmount := "100", loading := false,
            error := "", success := "", authToken := "tok" }
          (.ok { success := none, message := none, balance := none,
                 data := some { url := some "https://pay.example/x" } })).state).1.success
      = "Payment gateway opened in new tab. Complete your payment there." ∧
    (redirectTimerBody "https://pay.example/x"
        (depositFunds
          { funds := none, depositAmount := "100", loading := false,
            error := "", success := "", authToken := "tok" }
          (.ok { success := none, message := none, balance := none,
                 data := some { url := some "https://pay.example/x" } })).state).1.depositAmount
      = "" ∧
    (redirectTimerBody "https://pay.example/x"
        (depositFunds
          { funds := none, depositAmount := "100", loading := false,
            error := "", success := "", authToken := "tok" }
          (.ok { success := none, message := none, balance := none,
                 data := some { url := some "https://pay.example/x" } })).state).2
      = [.windowOpen "https://pay.example/x"] ∧
    ("Redirecting to payment gateway..." : String)
        ≠ "Payment gateway opened in new tab. Complete your payment there." :=
  c5_redirect_two_phase _ _ "https://pay.example/x"
    (by decide) (by decide) (by decide) (by decide)

/-- Claim C6: a successful deposit whose response carries no (truthy) redirect
URL immediately sets the success message naming the deposited amount and
clears the amount input, and schedules the 2000 ms refresh timer; firing that
timer issues the GET fetch and clears the success message, whatever the
fetch's own outcome. -/
theorem c6_direct_deposit (s : ComponentState) (resp : DepositResponse)
    (htok : s.authToken ≠ "") (hamt : invalidAmount s.depositAmount = false)
    (hnu : truthyUrl resp = false) :
    (depositFunds s (.ok resp)).state.success = "Successfully deposited ₹" ++ s.depositAmount ∧
    (depositFunds s (.ok resp)).state.depositAmount = "" ∧
    (depositFunds s (.ok resp)).timer = some (2000, .refresh) ∧
    ∀ o : FetchOutcome,
      (refreshTimerBody (depositFunds s (.ok resp)).state o).1.success = "" ∧
      (refreshTimerBody (depositFunds s (.ok resp)).state o).2
          = [.netGet (BASE_URL ++ "/funds") s.authToken] := by
  refine ⟨?_, ?_, ?_, ?_⟩
  · simp [depositFunds, depositStart, hnu, htok, hamt]
  · simp [depositFunds, depositStart, hnu, htok, hamt]
  · simp [depositFunds, depositStart, hnu, htok, hamt]
  · intro o
    cases o <;>
      simp [depositFunds, depositStart, refreshTimerBody, fetchFunds, fetchStart,
            hnu, htok, hamt]

/-- Witness for C6 at token `"tok"`, amount `"50"`, response `{success:true}`
with no URL; the refresh timer is fired at all three fetch outcomes. -/
theorem c6_direct_deposit_witness :
    (depositFunds
        { funds := none, depositAmount := "50", loading := false,
          error := "", success := "", authToken := "tok" }
        (.ok { success := some true, message := none, balance := none,
               data := none })).state.success
      = "Successfully deposited ₹" ++ "50" ∧
    (depositFunds
        { funds := none, depositAmount := "50", loading := false,
          error := "", success := "", authToken := "tok" }
        (.ok { success := some true, message := none, balance := none,
               data := none })).state.depositAmount = "" ∧
    (depositFunds
        { funds := none, depositAmount := "50", loading := false,
          error := "", success := "", authToken := "tok" }
        (.ok { success := some true, message := none, balance := none,
               data := none })).timer = some (2000, .refresh) ∧
    (∀ o : FetchOutcome,
      (refreshTimerBody
          (depositFunds
            { funds := none, depositAmount := "50", loading := false,
              error := "", success := "", authToken := "tok" }
            (.ok { success := some true, message := none, balance := none,
                   data := none })).state o).1.success = "" ∧
      (refreshTimerBody
          (depositFunds
            { funds := none, depositAmount := "50", loading := false,
              error := "", success := "", authToken := "tok" }
            (.ok { success := some true, message := none, balance := none,
                   data := none })).state o).2
        = [.netGet (BASE_URL ++ "/funds") "tok"]) :=
  c6_direct_deposit _ _ (by decide) (by decide) (by decide)

/-- Counterexample to claim C3: starting a fetch does NOT clear the success
message - `fetchFunds` runs only `setLoading(true); setError('')` - so a
prior success message (here `"prior success"`) is still present right after
the start and even after the fetch completes successfully, and the successful
fetch sets no success message of its own. -/
theorem c3_counterexample :
    (fetchStart
        { funds := none, depositAmount := "", loading := false,
          error := "", success := "prior success", authToken := "tok" }).success
      = "prior success" ∧
    (fetchFunds
        { funds := none, depositAmount := "", loading := false,
          error := "", success := "prior success", authToken := "tok" }
        (.ok { type := none, email := none, balance := none })).state.success
      = "prior success" ∧
    ("prior success" : String) ≠ "" :=
  ⟨rfl, by decide, by decide⟩

/-- Claim C3 as amended: starting a deposit (guards passed) clears both
messages, but starting a fetch clears only the error message and leaves the
success message unchanged; on completion, a failing operation of either kind
sets only the error message (deposit's success message stays cleared, fetch's
stays whatever it was), a successful deposit sets only the success message
(per-branch value), and a successful fetch sets neither message. -/
theorem c3_amended_message_discipline (s : ComponentState) (d : FundsData)
    (resp : DepositResponse) (status : Nat) (detail : String)
    (htok : s.authToken ≠ "") (hamt : invalidAmount s.depositAmount = false) :
    (depositStart s).error = "" ∧
    (depositStart s).success = "" ∧
    (fetchStart s).error = "" ∧
    (fetchStart s).success = s.success ∧
    (fetchFunds s (.ok d)).state.error = "" ∧
    (fetchFunds s (.ok d)).state.success = s.success ∧
    (fetchFunds s (.httpError status)).state.success = s.success ∧
    (depositFunds s (.httpError status)).state.success = "" ∧
    (depositFunds s (.transportError detail)).state.success = "" ∧
    (depositFunds s (.ok resp)).state.error = "" ∧
    (depositFunds s (.ok resp)).state.success =
      (if depositMode = "NB" ∧ truthyUrl resp = true then "Redirecting to payment gateway..."
       else "Successfully deposited ₹" ++ s.depositAmount) := by
  refine ⟨rfl, rfl, rfl, rfl, ?_, ?_, ?_, ?_, ?_, ?_, ?_⟩
  · simp [fetchFunds, fetchStart, htok]
  · simp [fetchFunds, fetchStart, htok]
  · simp [fetchFunds, fetchStart, htok]
  · simp [depositFunds, depositStart, htok, hamt]
  · simp [depositFunds, depositStart, htok, hamt]
  · by_cases h : truthyUrl resp = true <;>
      simp [depositFunds, depositStart, depositMode, htok, hamt, h]
  · by_cases h : truthyUrl resp = true <;>
      simp [depositFunds, depositStart, depositMode, htok, hamt, h]

/-- Witness for the amended C3 at a state carrying a prior success message,
with a direct-deposit response, status 500 and a transport detail. -/
theorem c3_amended_message_discipline_witness :
    (depositStart
        { funds := none, depositAmount := "50", loading := false,
          error := "old error", success := "old success", authToken := "tok" }).error = "" ∧
    (depositStart
        { funds := none, depositAmount := "50", loading := false,
          error := "old error", success := "old success", authToken := "tok" }).success = "" ∧
    (fetchStart
        { funds := none, depositAmount := "50", loading := false,
          error := "old error", success := "old success", authToken := "tok" }).error = "" ∧
    (fetchStart
        { funds := none, depositAmount := "50", loading := false,
          error := "old error", success := "old success", authToken := "tok" }).success
      = "old success" ∧
    (fetchFunds
        { funds := none, depositAmount := "50", loading := false,
          error := "old error", success := "old success", authToken := "tok" }
        (.ok { type := none, email := none, balance := none })).state.error = "" ∧
    (fetchFunds
        { funds := none, depositAmount := "50", loading := false,
          error := "old error", success := "old success", authToken := "tok" }
        (.ok { type := none, email := none, balance := none })).state.success
      = "old success" ∧
    (fetchFunds
        { funds := none, depositAmount := "50", loading := false,
          error := "old error", success := "old success", authToken := "tok" }
        (.httpError 500)).state.success = "old success" ∧
    (depositFunds
        { funds := none, depositAmount := "50", loading := false,
          error := "old error", success := "old success", authToken := "tok" }
        (.httpError 500)).state.success = "" ∧
    (depositFunds
        { funds := none, depositAmount := "50", loading := false,
          error := "old error", success := "old success", authToken := "tok" }
        (.transportError "Failed to fetch")).state.success = "" ∧
    (depositFunds
        { funds := none, depositAmount := "50", loading := false,
          error := "old error", success := "old success", authToken := "tok" }
        (.ok { success := some true, message := none, balance := none,
               data := none })).state.error = "" ∧
    (depositFunds
        { funds := none, depositAmount := "50", loading := false,
          error := "old error", success := "old success", authToken := "tok" }
        (.ok { success := some true, message := none, balance := none,
               data := none })).state.success =
      (if depositMode = "NB" ∧ truthyUrl { success := some true, message := none,
                                           balance := none, data := none } = true
       then "Redirecting to payment gateway..."
       else "Successfully deposited ₹" ++ "50") :=
  c3_amended_message_discipline _ _ _ 500 "Failed to fetch" (by decide) (by decide)

/-- Counterexample to claim C2: the effect `useEffect(..., [authToken])` runs
its body on every render where the token changed, and the body fetches
whenever the token is truthy - so a change from the non-empty token `"a"` to
the non-empty token `"b"` DOES trigger a fetch, where the claim says none is
triggered. -/
theorem c2_counterexample : fetchTriggeredOnUpdate "a" "b" = true := by decide

/-- Claim C2 as amended: an automatic fetch is triggered on every token change
whose new value is non-empty - including changes from one non-empty value to
another - and only changes ending in an empty token (or no change) trigger no
fetch; on mount, a fetch is triggered exactly when the initial token is
non-empty, so never, since the initial token is the empty string. -/
theorem c2_amended_effect_trigger (prev cur init : String) :
    (fetchTriggeredOnUpdate prev cur = true ↔ (cur ≠ prev ∧ cur ≠ "")) ∧
    (fetchTriggeredOnMount init = true ↔ init ≠ "") ∧
    fetchTriggeredOnMount initialState.authToken = false := by
  refine ⟨?_, ?_, by decide⟩ <;>
    simp [fetchTriggeredOnUpdate, fetchTriggeredOnMount]
